import Mathlib

/-!
Shallow embedding of the Govee Cloud polling client
(`custom_components/govee_cloud/api.py`, class `GoveeAPI`).

Modelling conventions:
* Python dictionaries coming from JSON are modelled as Lean structures whose
  fields are `Option`-typed: `none` means the key is missing.
* `json.loads` applied to a stringly-encoded sub-document is an external
  operation whose outcome is carried by the record itself: a field of type
  `Except Unit X` is `.ok x` when the stored string parses to the dictionary
  `x`, and `.error ()` when `json.loads` would raise (malformed string, or a
  JSON value that is not an object, so that a subsequent `.get` raises).
  A missing key is `none`, which in the source defaults to the literal
  string `"{}"`, i.e. the empty dictionary.
* Python exceptions escaping a function are modelled by an `Except Unit`
  result; code that catches all exceptions (`except Exception`) is a total
  function.
* Python floats are idealised as rationals `ℚ`; `round(x, 1)` is
  `(round (x * 10) : ℤ) / 10` with Mathlib's integer rounding (the claims
  compared here use the very same rounding expression on both sides, so the
  tie-breaking convention does not affect any statement).
* External effects (the clock, the token file, `jwt.decode`, the vendor's
  HTTP responses) are supplied by an explicit environment record `Env`.
-/

namespace GoveeCloud

/-- Constant from const.py: the single supported device model. -/
def THERMOMETER_SKU : String := "H5111"

/-- Decoded JWT claims as used by the client: only the `exp` claim is read
(`decoded.get("exp")`); `none` means the claim is absent. -/
structure JwtClaims where
  exp : Option Int
deriving Repr, DecidableEq

/-- What `json.load` of the token cache file yields: a dictionary whose
`token` key is optional. -/
structure TokenFileData where
  token : Option String
deriving Repr, DecidableEq

instance {ε α : Type} [DecidableEq ε] [DecidableEq α] : DecidableEq (Except ε α)
  | .ok x, .ok y => decidable_of_iff (x = y) (by simp)
  | .error x, .error y => decidable_of_iff (x = y) (by simp)
  | .ok _, .error _ => .isFalse Except.noConfusion
  | .error _, .ok _ => .isFalse Except.noConfusion

/-- State of the token cache file: `none` = file does not exist;
`some (.error ())` = file exists but `json.load` raises (unreadable or
malformed); `some (.ok d)` = file parses to the dictionary `d`. -/
abbrev FileState := Option (Except Unit TokenFileData)

/-- The parsed `lastDeviceData` sub-document of a device record. -/
structure LastDeviceData where
  tem : Option Int
  hum : Option Int
  online : Option Bool
  lastTime : Option Int
deriving Repr, DecidableEq

/-- The parsed `deviceSettings` sub-document of a device record. -/
structure DeviceSettings where
  battery : Option Int
deriving Repr, DecidableEq

/-- The `deviceExt` sub-dictionary of a device record.  Each stringly-encoded
sub-document carries its `json.loads` outcome (see the header comment);
`none` means the key is missing, in which case the source substitutes the
string `"{}"`. -/
structure DeviceExt where
  lastDeviceData : Option (Except Unit LastDeviceData)
  deviceSettings : Option (Except Unit DeviceSettings)
deriving Repr, DecidableEq

/-- A raw device record from the device-list response.  Only the fields the
client reads are modelled. -/
structure Device where
  sku : Option String
  deviceExt : Option DeviceExt
deriving Repr, DecidableEq

/-- The flat telemetry dictionary returned by `extract_device_data`. -/
structure TelemetrySnapshot where
  temperature : Option ℚ
  humidity : Option ℚ
  battery : Option Int
  online : Bool
  last_update : Option Int
deriving Repr, DecidableEq

/-- Source `govee_temp_value` (api.py:28-31): `round(api_value / 100.0, 1)`,
with floats idealised as rationals: `round(x, 1) = round(x*10)/10` and
`api_value / 100.0 * 10 = api_value / 10`. -/
def govee_temp_value (api_value : Int) : ℚ :=
  (round ((api_value : ℚ) / 10) : ℤ) / 10

/-- The empty dictionary `{}`, the result of parsing the default string
`"{}"` used when a sub-document key is missing. -/
def emptyLastDeviceData : LastDeviceData := ⟨none, none, none, none⟩

/-- The empty dictionary `{}` for the settings sub-document. -/
def emptyDeviceSettings : DeviceSettings := ⟨none⟩

/-- Source api.py:176-178 — `device.get("deviceExt", {})`, then
`json.loads(device_ext.get("lastDeviceData", "{}"))`.  A missing key yields
the empty dictionary; a present key yields the recorded parse outcome. -/
def lastDataOf (d : Device) : Except Unit LastDeviceData :=
  match d.deviceExt with
  | none => .ok emptyLastDeviceData
  | some ext =>
    match ext.lastDeviceData with
    | none => .ok emptyLastDeviceData
    | some r => r

/-- Source api.py:188 — `json.loads(device_ext.get("deviceSettings", "{}"))`. -/
def settingsOf (d : Device) : Except Unit DeviceSettings :=
  match d.deviceExt with
  | none => .ok emptyDeviceSettings
  | some ext =>
    match ext.deviceSettings with
    | none => .ok emptyDeviceSettings
    | some r => r

/-- Source `extract_device_data` (api.py:174-193).  The source parses
`lastDeviceData` first (line 178) and `deviceSettings` inside the returned
dictionary (line 188); either `json.loads` raising propagates out of the
function, hence the `Except` result.  `hum` truthiness
(`if last_device_data.get("hum")`) is: key present with a non-zero value. -/
def extract_device_data (d : Device) : Except Unit TelemetrySnapshot :=
  match lastDataOf d with
  | .error e => .error e
  | .ok last_device_data =>
  match settingsOf d with
  | .error e => .error e
  | .ok settings =>
  .ok {
    temperature :=
      match last_device_data.tem with
      | some temp_raw => some (govee_temp_value temp_raw)
      | none => none
    humidity :=
      match last_device_data.hum with
      | some h => if h ≠ 0 then some ((h : ℚ) / 100) else none
      | none => none
    battery := settings.battery
    online := last_device_data.online.getD false
    last_update := last_device_data.lastTime }

/-- The `data` member of a device-list response body. -/
structure DataField where
  devices : Option (List Device)
deriving Repr, DecidableEq

/-- Parsed JSON body of a 2xx device-list response: an optional numeric
`status` member and an optional `data` member. -/
structure DevicesResponse where
  status : Option Int
  data : Option DataField
deriving Repr, DecidableEq

/-- The external world as the client observes it: the outcome of
`jwt.decode` on each token string (`none` = the call raises), the clock,
whether the strftime/open/write steps of `_save_token` succeed, the outcome
of the login exchange (`.error` = `requests` raising or `raise_for_status`
on a non-2xx response), and the JSON bodies of the first and the retried
device-list call (`.error` = transport failure / non-2xx status raising in
`raise_for_status`, `.ok` = a 2xx response with the given parsed body). -/
structure Env where
  decode : String → Option JwtClaims
  now : Int
  writeOk : Bool
  loginResult : Except Unit String
  resp1 : Except Unit DevicesResponse
  resp2 : Except Unit DevicesResponse

/-- Mutable client state: the in-memory token (`self._token`) and the token
cache file. -/
structure ClientState where
  token : Option String
  file : FileState
deriving Repr, DecidableEq

/-- Model of `_load_token` (api.py:33-63).  Returns `none` when the file is missing,
`json.load` raises, the `token` key is missing or falsy (empty string),
`jwt.decode` raises, the `exp` claim is falsy (absent or `0`), or the
expiry is not strictly in the future (`exp and exp > time.time()`); all
exceptions are caught by the `except Exception` handler. -/
def load_token (env : Env) (fs : FileState) : Option String :=
  match fs with
  | none => none
  | some (.error _) => none
  | some (.ok d) =>
    match d.token with
    | none => none
    | some token =>
      if token = "" then none
      else
        match env.decode token with
        | none => none
        | some decoded =>
          match decoded.exp with
          | none => none
          | some exp => if exp ≠ 0 ∧ env.now < exp then some token else none

/-- The `try` block of `_save_token` (api.py:67-78): `jwt.decode` may raise;
the strftime/open/`json.dump` steps may raise (collapsed into `writeOk`);
on success the file is overwritten with `{"token": token}`. -/
def save_token_body (env : Env) (tok : String) : Except Unit FileState :=
  match env.decode tok with
  | none => .error ()
  | some _ =>
    if env.writeOk then .ok (some (.ok ⟨some tok⟩)) else .error ()

/-- Model of `_save_token` (api.py:65-81): any exception in the body is caught and
logged, leaving the file unchanged; the function itself never raises. -/
def save_token (env : Env) (fs : FileState) (tok : String) : FileState :=
  match save_token_body env tok with
  | .ok fs' => fs'
  | .error _ => fs

/-- Model of `_login` (api.py:82-122): the vendor exchange either raises
(`raise_for_status` / missing token field) or yields a token, which is
passed to the best-effort `_save_token` and returned. -/
def login (env : Env) (fs : FileState) : Except Unit (String × FileState) :=
  match env.loginResult with
  | .error e => .error e
  | .ok token => .ok (token, save_token env fs token)

/-- Counters for the observable side effects of one call:
device-list fetches issued, `_login` calls, `_load_token` calls. -/
structure FetchStats where
  fetches : Nat
  logins : Nat
  loads : Nat
deriving Repr, DecidableEq

/-- Model of `_ensure_authenticated` (api.py:124-130): if the in-memory token is
absent, try `_load_token`; if still absent, `_login` (which may raise).
Returns the new state together with (logins, loads) performed. -/
def ensure_authenticated (env : Env) (s : ClientState) :
    Except Unit (ClientState × Nat × Nat) :=
  let (s1, loads) :=
    match s.token with
    | none => ({ s with token := load_token env s.file }, 1)
    | some _ => (s, 0)
  match s1.token with
  | none =>
    match login env s1.file with
    | .error e => .error e
    | .ok (tok, fs') => .ok ({ token := some tok, file := fs' }, 1, loads)
  | some _ => .ok (s1, 0, loads)

/-- Source api.py:168 — `data.get("data", {}).get("devices", [])`. -/
def devices_of (r : DevicesResponse) : List Device :=
  match r.data with
  | none => []
  | some df => df.devices.getD []

/-- Source api.py:169 — `[d for d in devices if d.get("sku") == THERMOMETER_SKU]`. -/
def thermometers_of (r : DevicesResponse) : List Device :=
  (devices_of r).filter (fun d => d.sku = some THERMOMETER_SKU)

/-- Result of a `get_devices` call: the returned list, the final client
state, the side-effect counters, and the bearer token attached to each
fetch in order (the value of `self._token` when the request was built). -/
structure FetchResult where
  result : List Device
  state : ClientState
  stats : FetchStats
  tokensUsed : List (Option String)
deriving Repr, DecidableEq

/-- Model of `get_devices` (api.py:132-172).  `_ensure_authenticated`, fetch; if the
2xx body's `status` member is truthy and equals 401
(`(status := data.get("status")) and status == 401`, equivalent to
`status = some 401` since `401` is truthy), clear the in-memory token,
`_ensure_authenticated` again, refetch, and — without re-checking the second
body's status — return the SKU-filtered device list of whichever body was
reached. -/
def get_devices (env : Env) (s : ClientState) : Except Unit FetchResult :=
  match ensure_authenticated env s with
  | .error e => .error e
  | .ok (s1, logins1, loads1) =>
  match env.resp1 with
  | .error e => .error e
  | .ok r1 =>
  if r1.status = some 401 then
    match ensure_authenticated env { s1 with token := none } with
    | .error e => .error e
    | .ok (s2, logins2, loads2) =>
    match env.resp2 with
    | .error e => .error e
    | .ok r2 =>
    .ok ⟨thermometers_of r2, s2, ⟨2, logins1 + logins2, loads1 + loads2⟩,
         [s1.token, s2.token]⟩
  else
    .ok ⟨thermometers_of r1, s1, ⟨1, logins1, loads1⟩, [s1.token]⟩

/-! ## Helper lemmas -/

/-- When both stringly-encoded sub-documents parse, `extract_device_data`
succeeds and its fields are determined by the two sub-documents. -/
theorem extract_eq_of_parses (d : Device) (sub : LastDeviceData)
    (st : DeviceSettings)
    (h1 : lastDataOf d = .ok sub) (h2 : settingsOf d = .ok st) :
    extract_device_data d = .ok {
      temperature :=
        match sub.tem with
        | some temp_raw => some (govee_temp_value temp_raw)
        | none => none
      humidity :=
        match sub.hum with
        | some h => if h ≠ 0 then some ((h : ℚ) / 100) else none
        | none => none
      battery := st.battery
      online := sub.online.getD false
      last_update := sub.lastTime } := by
  simp [extract_device_data, h1, h2]

/-- Helper: `_ensure_authenticated` succeeds whenever the vendor login exchange
would succeed, performing at most one login and at most one cache read. -/
theorem ensure_ok_of_login_ok (env : Env) (s : ClientState) (tok : String)
    (h : env.loginResult = .ok tok) :
    ∃ s' lg ld, ensure_authenticated env s = .ok (s', lg, ld) ∧
      lg ≤ 1 ∧ ld ≤ 1 := by
  unfold ensure_authenticated login
  cases htok : s.token with
  | none =>
    cases hl : load_token env s.file with
    | none =>
      refine ⟨{ token := some tok, file := save_token env s.file tok }, 1, 1,
        ?_, by omega, by omega⟩
      simp [htok, hl, h]
    | some t =>
      refine ⟨{ s with token := some t }, 0, 1, ?_, by omega, by omega⟩
      simp [htok, hl]
  | some t =>
    refine ⟨s, 0, 0, ?_, by omega, by omega⟩
    simp [htok]

/-! ## C7 — temperature normalization -/

/-- C7: for every raw temperature integer `T` present in the telemetry
blob, the normalized temperature equals `round(T/100, 1)` — over `ℚ`:
`round((T/100) * 10) / 10` — and the temperature field is absent iff the
raw `tem` field is absent. -/
theorem temperature_normalized (d : Device) (sub : LastDeviceData)
    (st : DeviceSettings) (snap : TelemetrySnapshot)
    (h1 : lastDataOf d = .ok sub) (h2 : settingsOf d = .ok st)
    (hok : extract_device_data d = .ok snap) :
    (∀ T : Int, sub.tem = some T →
        snap.temperature = some (((round ((T : ℚ) / 100 * 10) : ℤ) : ℚ) / 10)) ∧
      (snap.temperature = none ↔ sub.tem = none) := by
  rw [extract_eq_of_parses d sub st h1 h2] at hok
  injection hok with hsnap
  subst hsnap
  constructor
  · intro T hT
    have harg : (T : ℚ) / 100 * 10 = (T : ℚ) / 10 := by ring
    simp only [hT, govee_temp_value, harg]
  · cases htem : sub.tem <;> simp [htem]

/-- C7 witness: a concrete device whose raw reading is `2155` yields
`21.6 °C`. -/
theorem temperature_normalized_witness :
    (⟨some (((216 : ℤ) : ℚ) / 10), none, none, false, none⟩ :
        TelemetrySnapshot).temperature =
      some (((round ((2155 : ℚ) / 100 * 10) : ℤ) : ℚ) / 10) :=
  (temperature_normalized
      ⟨some "H5111", some ⟨some (.ok ⟨some 2155, none, none, none⟩), none⟩⟩
      ⟨some 2155, none, none, none⟩ emptyDeviceSettings
      ⟨some (((216 : ℤ) : ℚ) / 10), none, none, false, none⟩
      rfl rfl (by norm_num [extract_device_data, lastDataOf, settingsOf,
        emptyDeviceSettings, govee_temp_value, round_eq])).1 2155 rfl

/-! ## C8 — humidity normalization -/

/-- C8: the normalized humidity is absent when the raw `hum` value is `0`
or absent, and equals `H / 100` otherwise. -/
theorem humidity_normalized (d : Device) (sub : LastDeviceData)
    (st : DeviceSettings) (snap : TelemetrySnapshot)
    (h1 : lastDataOf d = .ok sub) (h2 : settingsOf d = .ok st)
    (hok : extract_device_data d = .ok snap) :
    (∀ H : Int, sub.hum = some H → H ≠ 0 →
        snap.humidity = some ((H : ℚ) / 100)) ∧
      (snap.humidity = none ↔ (sub.hum = none ∨ sub.hum = some 0)) := by
  rw [extract_eq_of_parses d sub st h1 h2] at hok
  injection hok with hsnap
  subst hsnap
  constructor
  · intro H hH hne
    simp only [hH, if_pos hne]
  · cases hhum : sub.hum with
    | none => simp [hhum]
    | some h =>
      by_cases hz : h = 0 <;> simp [hhum, hz]

/-- C8 witness: raw humidity `4500` yields the fraction `45`… i.e.
`4500 / 100 = 45`; and raw humidity `0` yields an absent field. -/
theorem humidity_normalized_witness :
    (⟨none, some (45 : ℚ), none, false, none⟩ :
        TelemetrySnapshot).humidity = some ((4500 : ℚ) / 100) :=
  (humidity_normalized
      ⟨some "H5111", some ⟨some (.ok ⟨none, some 4500, none, none⟩), none⟩⟩
      ⟨none, some 4500, none, none⟩ emptyDeviceSettings
      ⟨none, some (45 : ℚ), none, false, none⟩
      rfl rfl (by norm_num [extract_device_data, lastDataOf, settingsOf,
        emptyDeviceSettings])).1
    4500 rfl (by norm_num)

/-! ## C2 — totality of the field normalizer -/

/-- C2 counterexample: a device record whose `deviceExt.lastDeviceData`
string is malformed (its `json.loads` raises) makes `extract_device_data`
raise for the whole record instead of yielding absent fields: the claim
that the function never raises is false. -/
theorem extract_raises_on_malformed :
    extract_device_data ⟨some "H5111", some ⟨some (.error ()), none⟩⟩ =
      .error () := rfl

/-- C2 amended: `extract_device_data` succeeds exactly when both
stringly-encoded sub-documents parse; missing keys (up to the whole
`deviceExt`) default to the empty dictionary and yield the all-absent
snapshot, but a malformed `lastDeviceData` or `deviceSettings` raises a
parse error for the whole record. -/
theorem extract_total_iff_subdocs_parse (d : Device) :
    ((∃ snap, extract_device_data d = .ok snap) ↔
        (∃ sub, lastDataOf d = .ok sub) ∧ (∃ st, settingsOf d = .ok st)) ∧
      (d.deviceExt = none →
        extract_device_data d = .ok ⟨none, none, none, false, none⟩) := by
  constructor
  · constructor
    · rintro ⟨snap, hsnap⟩
      unfold extract_device_data at hsnap
      cases hld : lastDataOf d with
      | error e => rw [hld] at hsnap; exact absurd hsnap (by simp)
      | ok sub =>
        cases hst : settingsOf d with
        | error e => rw [hld, hst] at hsnap; exact absurd hsnap (by simp)
        | ok st => exact ⟨⟨sub, rfl⟩, ⟨st, rfl⟩⟩
    · rintro ⟨⟨sub, hsub⟩, ⟨st, hst⟩⟩
      exact ⟨_, extract_eq_of_parses d sub st hsub hst⟩
  · intro hext
    simp [extract_device_data, lastDataOf, settingsOf, hext,
      emptyLastDeviceData, emptyDeviceSettings]

/-- C2 witness: a record with no `deviceExt` at all normalizes to the
all-absent snapshot. -/
theorem extract_total_iff_subdocs_parse_witness :
    extract_device_data ⟨some "H5111", none⟩ =
      .ok ⟨none, none, none, false, none⟩ :=
  (extract_total_iff_subdocs_parse ⟨some "H5111", none⟩).2 rfl

/-! ## C4 — token-store load and the missing-expiry case -/

/-- Environment for the C4 counterexample: every token decodes to a claim
set with no `exp` member; nothing else is ever consulted. -/
def envNoExp : Env :=
  { decode := fun _ => some ⟨none⟩, now := 0, writeOk := true,
    loginResult := .ok "T", resp1 := .error (), resp2 := .error () }

/-- C4 counterexample: a well-formed stored token whose decoded claims
contain no `exp` field makes `_load_token` return `none` — the claim says
such a token is returned ("usable until rejected"), but the source's
`if exp and exp > time.time()` treats a falsy `exp` as expired. -/
theorem load_token_drops_token_without_exp :
    envNoExp.decode "tok" = some ⟨none⟩ ∧
      load_token envNoExp (some (.ok ⟨some "tok"⟩)) = none :=
  ⟨rfl, rfl⟩

/-- C4 amended: `_load_token` returns a token iff the file holds exactly
that non-empty token, its decode succeeds, and the decoded claims carry a
truthy (present, non-zero) `exp` that is strictly in the future; a missing
`exp` — like a missing/malformed file or a past expiry — yields absent. -/
theorem load_token_some_iff (env : Env) (fs : FileState) (t : String) :
    load_token env fs = some t ↔
      fs = some (.ok ⟨some t⟩) ∧ t ≠ "" ∧
        ∃ c e, env.decode t = some c ∧ c.exp = some e ∧
          e ≠ 0 ∧ env.now < e := by
  constructor
  · intro h
    match fs with
    | none => exact absurd h (by simp [load_token])
    | some (.error ()) => exact absurd h (by simp [load_token])
    | some (.ok ⟨none⟩) => exact absurd h (by simp [load_token])
    | some (.ok ⟨some t0⟩) =>
      simp only [load_token] at h
      by_cases h0 : t0 = ""
      · rw [if_pos h0] at h; exact absurd h (by simp)
      · rw [if_neg h0] at h
        cases hdec : env.decode t0 with
        | none => simp only [hdec] at h; exact Option.noConfusion h
        | some c =>
          simp only [hdec] at h
          cases hexp : c.exp with
          | none => simp only [hexp] at h; exact Option.noConfusion h
          | some e =>
            simp only [hexp] at h
            by_cases hcond : e ≠ 0 ∧ env.now < e
            · rw [if_pos hcond] at h
              injection h with ht
              subst ht
              exact ⟨rfl, h0, c, e, hdec, hexp, hcond⟩
            · rw [if_neg hcond] at h; exact absurd h (by simp)
  · rintro ⟨hfs, h0, c, e, hdec, hexp, hcond⟩
    subst hfs
    simp only [load_token]
    rw [if_neg h0]
    simp only [hdec, hexp]
    rw [if_pos hcond]

/-! ## C5 — token-store round trip -/

/-- C5: after a successful `_save_token tok` (decode succeeded and the
write went through), `_load_token` returns `tok` when the embedded expiry
is strictly in the future and absent when it is in the past — for every
prior file state, i.e. independent of how many save/load cycles occurred. -/
theorem save_load_roundtrip (env : Env) (fs : FileState) (tok : String)
    (c : JwtClaims) (e : Int)
    (hdec : env.decode tok = some c) (hexp : c.exp = some e)
    (hw : env.writeOk = true) (htok : tok ≠ "") (hnow : 0 ≤ env.now) :
    (env.now < e → load_token env (save_token env fs tok) = some tok) ∧
      (e ≤ env.now → load_token env (save_token env fs tok) = none) := by
  have hsave : save_token env fs tok = some (.ok ⟨some tok⟩) := by
    simp [save_token, save_token_body, hdec, hw]
  rw [hsave]
  simp only [load_token]
  rw [if_neg htok]
  simp only [hdec, hexp]
  constructor
  · intro hfut
    rw [if_pos ⟨by omega, hfut⟩]
  · intro hpast
    rw [if_neg (by omega)]

/-- C5 witness: a concrete save/load cycle on a token expiring at `100`
with the clock at `50` returns the very token that was saved. -/
theorem save_load_roundtrip_witness :
    load_token
        ⟨fun _ => some ⟨some 100⟩, 50, true, .ok "T", .error (), .error ()⟩
        (save_token
          ⟨fun _ => some ⟨some 100⟩, 50, true, .ok "T", .error (), .error ()⟩
          none "T") = some "T" :=
  (save_load_roundtrip
      ⟨fun _ => some ⟨some 100⟩, 50, true, .ok "T", .error (), .error ()⟩
      none "T" ⟨some 100⟩ 100 rfl rfl rfl (by decide) (by norm_num)).1
    (by norm_num)

/-! ## C9 — cache-write failures never escape -/

/-- C9: when the body of `_save_token` fails (decode error or write error),
the exception is swallowed: `_login` still succeeds, returns exactly the
vendor token, and leaves the file as it was. -/
theorem login_ok_despite_cache_failure (env : Env) (fs : FileState)
    (tok : String)
    (hlogin : env.loginResult = .ok tok)
    (hfail : save_token_body env tok = .error ()) :
    login env fs = .ok (tok, fs) := by
  unfold login
  rw [hlogin]
  simp [save_token, hfail]

/-- C9 witness: a failing file write (`writeOk = false`) does not stop a
successful vendor exchange from returning its token. -/
theorem login_ok_despite_cache_failure_witness :
    login ⟨fun _ => some ⟨some 100⟩, 0, false, .ok "T", .error (), .error ()⟩
        none = .ok ("T", none) :=
  login_ok_despite_cache_failure
    ⟨fun _ => some ⟨some 100⟩, 0, false, .ok "T", .error (), .error ()⟩
    none "T" rfl (by simp [save_token_body])

/-! ## C6 — idempotence of `_ensure_authenticated` -/

/-- C6: starting with no in-memory token and a cache miss, the first
`_ensure_authenticated` performs exactly one login; calling it again with
no intervening invalidation is a no-op — same state back, zero further
logins and zero further cache reads — so the pair performs exactly one
login in total. -/
theorem ensure_authenticated_idempotent (env : Env) (s : ClientState)
    (tok : String)
    (htok0 : s.token = none)
    (hmiss : load_token env s.file = none)
    (hlogin : env.loginResult = .ok tok) :
    ensure_authenticated env s =
        .ok (⟨some tok, save_token env s.file tok⟩, 1, 1) ∧
      ensure_authenticated env ⟨some tok, save_token env s.file tok⟩ =
        .ok (⟨some tok, save_token env s.file tok⟩, 0, 0) := by
  constructor
  · simp [ensure_authenticated, login, htok0, hmiss, hlogin]
  · simp [ensure_authenticated]

/-- C6 witness: a concrete double call — fresh state, empty cache —
performs one login and the second call returns the cached token state
unchanged. -/
theorem ensure_authenticated_idempotent_witness :
    ensure_authenticated
        ⟨fun _ => some ⟨some 100⟩, 0, true, .ok "T", .error (), .error ()⟩
        ⟨some "T", some (.ok ⟨some "T"⟩)⟩ =
      .ok (⟨some "T", some (.ok ⟨some "T"⟩)⟩, 0, 0) :=
  (ensure_authenticated_idempotent
      ⟨fun _ => some ⟨some 100⟩, 0, true, .ok "T", .error (), .error ()⟩
      ⟨none, none⟩ "T" rfl rfl rfl).2

/-! ## C1 — the double-401 fetch sequence -/

/-- Environment in which every device-list call answers 2xx with a body
reporting status 401 and no `data` member, a cold start (no token file),
and a vendor login that succeeds with token `"T"` (decodable, expiring
far in the future). -/
def envDouble401 : Env :=
  { decode := fun s => if s = "T" then some ⟨some 1000⟩ else none
    now := 0, writeOk := true, loginResult := .ok "T"
    resp1 := .ok ⟨some 401, none⟩, resp2 := .ok ⟨some 401, none⟩ }

/-- C1 counterexample: with every response reporting in-body 401,
`get_devices` performs 2 fetches and 1 login, then RETURNS the empty
list — an ordinary value, not an `AuthFailure`: after the unchecked second
fetch the body `{"status": 401}` has no `data` member, so line 168 yields
`[]`.  (The single login here is the initial one; the forced re-auth read
the just-written cache instead of logging in again.) -/
theorem get_devices_double_401_returns_value :
    get_devices envDouble401 ⟨none, none⟩ =
      .ok ⟨[], ⟨some "T", some (.ok ⟨some "T"⟩)⟩, ⟨2, 1, 2⟩,
           [some "T", some "T"]⟩ := rfl

/-- C1 amended: in such a sequence `get_devices` performs exactly 2 fetch
attempts and at most 2 logins overall (so at most 1 during the forced
re-authentication), and then returns the SKU-filtered device list of the
second response — typically empty — rather than failing. -/
theorem get_devices_double_401_bounded (env : Env) (s : ClientState)
    (r1 r2 : DevicesResponse) (tok : String)
    (h1 : env.resp1 = .ok r1) (hs1 : r1.status = some 401)
    (h2 : env.resp2 = .ok r2)
    (hlogin : env.loginResult = .ok tok) :
    ∃ res, get_devices env s = .ok res ∧
      res.result = thermometers_of r2 ∧
      res.stats.fetches = 2 ∧ res.stats.logins ≤ 2 := by
  obtain ⟨s1, lg1, ld1, he1, hlg1, -⟩ := ensure_ok_of_login_ok env s tok hlogin
  obtain ⟨s2, lg2, ld2, he2, hlg2, -⟩ :=
    ensure_ok_of_login_ok env { s1 with token := none } tok hlogin
  refine ⟨⟨thermometers_of r2, s2, ⟨2, lg1 + lg2, ld1 + ld2⟩,
    [s1.token, s2.token]⟩, ?_, rfl, rfl, by simp; omega⟩
  simp [get_devices, he1, h1, hs1, he2, h2]

/-- C1 amended witness: in the concrete double-401 environment the call
comes back as a value. -/
theorem get_devices_double_401_bounded_witness :
    (get_devices envDouble401 ⟨none, none⟩).toOption.isSome = true := by
  obtain ⟨res, hres, -, -, -⟩ :=
    get_devices_double_401_bounded envDouble401 ⟨none, none⟩
      ⟨some 401, none⟩ ⟨some 401, none⟩ "T" rfl rfl rfl rfl
  rw [hres]
  rfl

/-! ## C3 — forced re-authentication does not bypass the token cache -/

/-- Environment for the C3 exhibit: the token file already holds an
unexpired token `"B"` that the server nevertheless rejects (both
device-list bodies report 401); vendor login would yield `"G"`. -/
def envRejectedCached : Env :=
  { decode := fun s => if s = "B" then some ⟨some 1000⟩ else none
    now := 0, writeOk := true, loginResult := .ok "G"
    resp1 := .ok ⟨some 401, none⟩, resp2 := .ok ⟨some 401, none⟩ }

/-- C3 exhibit: after the in-body 401, `get_devices` does clear the
in-memory token, but the forced `_ensure_authenticated` consults
`_load_token` FIRST (api.py:126-127): the token file is read a second
time, the same known-bad token `"B"` comes back, no fresh login happens
(0 logins), and the retry is issued with the very token that was just
rejected — the cache is not bypassed and the store is read twice in one
client lifetime. -/
theorem get_devices_reuses_rejected_cached_token :
    get_devices envRejectedCached ⟨none, some (.ok ⟨some "B"⟩)⟩ =
      .ok ⟨[], ⟨some "B", some (.ok ⟨some "B"⟩)⟩, ⟨2, 0, 2⟩,
           [some "B", some "B"]⟩ := rfl

/-! ## C10 — missing `data`/`devices` members yield the empty list -/

/-- C10: a 2xx response whose body does not report 401 and lacks the
`data` member, or whose `data` lacks the `devices` member, makes
`get_devices` return the empty list rather than raise
(`data.get("data", {}).get("devices", [])`). -/
theorem get_devices_empty_on_missing_devices (env : Env) (s : ClientState)
    (r1 : DevicesResponse) (tok : String)
    (h1 : env.resp1 = .ok r1) (hs : r1.status ≠ some 401)
    (hd : r1.data = none ∨ ∃ df, r1.data = some df ∧ df.devices = none)
    (hlogin : env.loginResult = .ok tok) :
    ∃ res, get_devices env s = .ok res ∧ res.result = [] := by
  obtain ⟨s1, lg1, ld1, he1, -, -⟩ := ensure_ok_of_login_ok env s tok hlogin
  have hdev : thermometers_of r1 = [] := by
    rcases hd with hd | ⟨df, hdf, hdevs⟩
    · simp [thermometers_of, devices_of, hd]
    · simp [thermometers_of, devices_of, hdf, hdevs]
  refine ⟨⟨thermometers_of r1, s1, ⟨1, lg1, ld1⟩, [s1.token]⟩, ?_, hdev⟩
  simp [get_devices, he1, h1, hs]

/-- Environment for the C10 witness: one 2xx response with neither a
`status` nor a `data` member. -/
def envNoData : Env :=
  { decode := fun _ => some ⟨some 1000⟩, now := 0, writeOk := true,
    loginResult := .ok "T", resp1 := .ok ⟨none, none⟩, resp2 := .error () }

/-- C10 witness: the concrete no-`data` response produces the empty
device list. -/
theorem get_devices_empty_on_missing_devices_witness :
    (get_devices envNoData ⟨none, none⟩).toOption.map FetchResult.result =
      some [] := by
  obtain ⟨res, hres, hr⟩ :=
    get_devices_empty_on_missing_devices envNoData ⟨none, none⟩
      ⟨none, none⟩ "T" rfl (by simp) (Or.inl rfl) rfl
  rw [hres]
  show some res.result = some []
  rw [hr]

end GoveeCloud
